import Mathlib

/-!
Verification of the AI prediction service in `ai-service/app/main.py`.

The service is a FastAPI mock: it validates a `PredictionRequest` with
pydantic field bounds, then `generate_mock_predictions` seeds Python's
global `random` generator with `hash(f"{provincia}{canton}{month}")`,
draws one `random.uniform(5, 85)` value per event type, applies a
seasonal multiplier of 1.3 for some (event, month) pairs, rounds to two
decimals, clamps at 100, attaches a four-tier risk level, and finally
calls `random.seed()` to reseed the global generator from OS entropy.

Embedding choices:
* Python floats are modelled as rationals (`ℚ`); the literal `1.3`
  becomes `13/10`.
* Python's string `hash` and the Mersenne-Twister stream behind
  `random.uniform(5, 85)` are external to the program text, so they are
  parameters of the embedding: `pyHash : String → ℤ` is the process's
  hash function, and `uniform : ℤ → ℕ → ℚ` gives the i-th value
  produced by `random.uniform(5, 85)` after `random.seed(s)` (the
  generator is deterministic once seeded).
* Python's `round(x, 2)` (round half to even) is `pyRound2`.
* Process-global mutable state is `GlobalState`: the module-level
  `MODEL_LOADED` flag and the `random` module's global generator state.
  `random.seed()` (no argument) draws fresh OS entropy, modelled as an
  explicit `entropy` input to the request handler.
* `datetime.now().isoformat()` is an explicit `now : String` input.
* FastAPI/pydantic runs the field validators before the handler body;
  `predictEndpoint` models that boundary: an invalid body is rejected
  with a 422 validation error and the handler never runs.
-/

namespace AIService

/-- `PredictionRequest` from main.py lines 41-48: the raw request fields.
The pydantic bounds themselves are `validRequest` below. -/
structure PredictionRequest where
  latitude : ℚ
  longitude : ℚ
  day : ℤ
  month : ℤ
  provincia : String
  canton : String
deriving DecidableEq

/-- The pydantic `Field` constraints of `PredictionRequest`
(main.py lines 43-48): latitude in [-5, 2], longitude in [-81, -75],
day in [1, 31], month in [1, 12], provincia and canton nonempty
(`min_length=1`). -/
def validRequest (r : PredictionRequest) : Bool :=
  decide (-5 ≤ r.latitude) && decide (r.latitude ≤ 2) &&
  decide (-81 ≤ r.longitude) && decide (r.longitude ≤ -75) &&
  decide (1 ≤ r.day) && decide (r.day ≤ 31) &&
  decide (1 ≤ r.month) && decide (r.month ≤ 12) &&
  decide (1 ≤ r.provincia.length) && decide (1 ≤ r.canton.length)

/-- `EventProbability` from main.py lines 63-67. -/
structure EventProbability where
  event_type : String
  probability : ℚ
  risk_level : String
deriving DecidableEq

/-- `PredictionResponse` from main.py lines 70-77; the nested `location`
dict is flattened into its four entries. -/
structure PredictionResponse where
  success : Bool
  timestamp : String
  location_provincia : String
  location_canton : String
  location_lat : ℚ
  location_lng : ℚ
  predictions : List EventProbability
  model_version : String
  is_mock : Bool
deriving DecidableEq

/-- Module-level `MODEL_LOADED = False` (main.py line 126) together with
the `random` module's global generator state, which `random.seed`
overwrites.  `randState` holds the seed value currently in effect. -/
structure GlobalState where
  MODEL_LOADED : Bool
  randState : ℤ
deriving DecidableEq

/-- Initial value of the module-level flag: `MODEL_LOADED = False`
(main.py line 126); nothing in the file ever assigns it again. -/
def MODEL_LOADED_init : Bool := false

/-- `get_risk_level` (main.py lines 133-142). -/
def get_risk_level (probability : ℚ) : String :=
  if probability ≥ 75 then "crítico"
  else if probability ≥ 50 then "alto"
  else if probability ≥ 25 then "medio"
  else "bajo"

/-- Python's `round(s)` to an integer: round half to even. -/
def pyRoundInt (s : ℚ) : ℤ :=
  if s - ⌊s⌋ < 1/2 then ⌊s⌋
  else if (1:ℚ)/2 < s - ⌊s⌋ then ⌊s⌋ + 1
  else if ⌊s⌋ % 2 = 0 then ⌊s⌋ else ⌊s⌋ + 1

/-- Python's `round(q, 2)`: round half to even at two decimal places. -/
def pyRound2 (q : ℚ) : ℚ :=
  (pyRoundInt (q * 100) : ℚ) / 100

/-- The fixed list `event_types` (main.py line 179). -/
def event_types : List String :=
  ["Inundación", "Deslizamiento", "Incendio", "Sismo"]

/-- The seasonal adjustment inside the loop of `generate_mock_predictions`
(main.py lines 191-195): flood probabilities are multiplied by 1.3 in
months 1-4, fire probabilities by 1.3 in months 7-10. -/
def seasonal_adjust (month : ℤ) (event_type : String) (base_prob : ℚ) : ℚ :=
  if event_type = "Inundación" ∧ month ∈ ([1, 2, 3, 4] : List ℤ) then
    base_prob * (13/10)
  else if event_type = "Incendio" ∧ month ∈ ([7, 8, 9, 10] : List ℤ) then
    base_prob * (13/10)
  else base_prob

/-- `probability = min(round(base_prob, 2), 100.0)` after the seasonal
adjustment (main.py line 197). -/
def mock_probability (month : ℤ) (event_type : String) (base_prob : ℚ) : ℚ :=
  min (pyRound2 (seasonal_adjust month event_type base_prob)) 100

/-- One iteration of the `for event_type in event_types` loop body in
`generate_mock_predictions` (main.py lines 187-203): `base_prob` is the
`random.uniform(5, 85)` draw of this iteration. -/
def mockStep (month : ℤ) (event_type : String) (base_prob : ℚ) : EventProbability :=
  { event_type := event_type
    probability := mock_probability month event_type base_prob
    risk_level := get_risk_level (mock_probability month event_type base_prob) }

/-- `generate_mock_predictions` (main.py lines 145-208): seed the global
generator with `hash(f"{provincia}{canton}{month}")`, then build one
`EventProbability` per event type, the i-th iteration consuming the i-th
`random.uniform(5, 85)` draw after that seed. -/
def generate_mock_predictions (pyHash : String → ℤ) (uniform : ℤ → ℕ → ℚ)
    (request : PredictionRequest) : List EventProbability :=
  (event_types.enum).map fun ie =>
    mockStep request.month ie.2
      (uniform (pyHash (request.provincia ++ request.canton ++ toString request.month)) ie.1)

/-- The `predict` handler body (main.py lines 227-265): always generates
mock predictions and returns a success response; the final
`random.seed()` in `generate_mock_predictions` leaves the global
generator reseeded from OS entropy (`entropy`), and `MODEL_LOADED` is
never written.  `now` is `datetime.now().isoformat()`. -/
def predict (pyHash : String → ℤ) (uniform : ℤ → ℕ → ℚ) (σ : GlobalState)
    (entropy : ℤ) (now : String) (request : PredictionRequest) :
    PredictionResponse × GlobalState :=
  ({ success := true
     timestamp := now
     location_provincia := request.provincia
     location_canton := request.canton
     location_lat := request.latitude
     location_lng := request.longitude
     predictions := generate_mock_predictions pyHash uniform request
     model_version := "mock-v1.0.0"
     is_mock := true },
   { σ with randState := entropy })

/-- Outcome of a `POST /predict` call at the HTTP boundary: either a 200
body or the 422 validation error FastAPI/pydantic produces when a field
constraint fails. -/
inductive HttpResult where
  | ok (body : PredictionResponse)
  | validationError
deriving DecidableEq

/-- True exactly on a 200 success result. -/
def HttpResult.isOk : HttpResult → Bool
  | .ok _ => true
  | .validationError => false

/-- The full `POST /predict` endpoint: pydantic validates the body
against the `Field` bounds before the handler body runs; an invalid body
is rejected with 422 and the handler (hence `generate_mock_predictions`)
is never entered and the global state is untouched. -/
def predictEndpoint (pyHash : String → ℤ) (uniform : ℤ → ℕ → ℚ) (σ : GlobalState)
    (entropy : ℤ) (now : String) (request : PredictionRequest) :
    HttpResult × GlobalState :=
  if validRequest request then
    (HttpResult.ok (predict pyHash uniform σ entropy now request).1,
     (predict pyHash uniform σ entropy now request).2)
  else
    (HttpResult.validationError, σ)

/-- Response body of `GET /health` (main.py lines 215-224). -/
structure HealthResponse where
  status : String
  service : String
  model_loaded : Bool
  mode : String
  timestamp : String
deriving DecidableEq

/-- `health_check` (main.py lines 215-224): a pure read of the global
state; it writes nothing. -/
def health_check (σ : GlobalState) (now : String) : HealthResponse × GlobalState :=
  ({ status := "healthy"
     service := "ai-service"
     model_loaded := σ.MODEL_LOADED
     mode := if ¬σ.MODEL_LOADED then "mock" else "production"
     timestamp := now }, σ)

/-- The list is sorted non-increasing: the order the spec claims for the
probabilities of the returned predictions. -/
def nonIncreasing (l : List ℚ) : Prop :=
  List.Chain' (fun a b => b ≤ a) l

/-- A fixed hash function standing for one process's `hash`. -/
def hash0 : String → ℤ := fun _ => 0

/-- A constant uniform stream: every `random.uniform(5, 85)` call
returns 10. -/
def unif0 : ℤ → ℕ → ℚ := fun _ _ => 10

/-- A uniform stream whose first draw is 10 and later draws are 80:
legal outputs of `random.uniform(5, 85)` that make the mock output
strictly increase from the first to the second entry. -/
def unifAsc : ℤ → ℕ → ℚ := fun _ i => if i = 0 then 10 else 80

/-- A concrete valid request (Guayaquil in May, so no seasonal
adjustment fires; integer coordinates inside the accepted bounds). -/
def req0 : PredictionRequest :=
  { latitude := -2, longitude := -79, day := 15, month := 5,
    provincia := "Guayas", canton := "Guayaquil" }

/-- `req0` with different latitude, longitude and day, same provincia,
canton and month. -/
def req0' : PredictionRequest :=
  { latitude := 0, longitude := -76, day := 1, month := 5,
    provincia := "Guayas", canton := "Guayaquil" }

/-- An invalid request: `day = 32` violates the `le=31` bound. -/
def reqBad : PredictionRequest :=
  { latitude := -2, longitude := -79, day := 32, month := 5,
    provincia := "Guayas", canton := "Guayaquil" }

/-- A concrete global state: model not loaded, generator state 0. -/
def st0 : GlobalState := { MODEL_LOADED := false, randState := 0 }

/-- `pyRoundInt` returns the floor or the floor plus one. -/
theorem pyRoundInt_mem (s : ℚ) : pyRoundInt s = ⌊s⌋ ∨ pyRoundInt s = ⌊s⌋ + 1 := by
  unfold pyRoundInt
  split_ifs <;> simp

/-- Rounding a nonnegative rational to two decimals stays nonnegative. -/
theorem pyRound2_nonneg {q : ℚ} (hq : 0 ≤ q) : 0 ≤ pyRound2 q := by
  have h0 : (0:ℤ) ≤ ⌊q * 100⌋ := Int.floor_nonneg.mpr (by positivity)
  unfold pyRound2
  rcases pyRoundInt_mem (q * 100) with h | h <;> rw [h] <;>
    refine div_nonneg ?_ (by norm_num)
  · exact_mod_cast h0
  · exact_mod_cast (by omega : (0:ℤ) ≤ ⌊q * 100⌋ + 1)

/-- The seasonal multiplier keeps a nonnegative base probability
nonnegative. -/
theorem seasonal_adjust_nonneg (m : ℤ) (et : String) {b : ℚ} (hb : 0 ≤ b) :
    0 ≤ seasonal_adjust m et b := by
  unfold seasonal_adjust
  split_ifs <;> positivity

/-- A clamped mock probability lies in [0, 100] whenever the uniform
draw is at least 5 (the lower end of `random.uniform(5, 85)`). -/
theorem mock_probability_bounds (m : ℤ) (et : String) {b : ℚ} (h5 : 5 ≤ b) :
    0 ≤ mock_probability m et b ∧ mock_probability m et b ≤ 100 := by
  unfold mock_probability
  refine ⟨le_min (pyRound2_nonneg (seasonal_adjust_nonneg m et (by linarith))) (by norm_num),
    min_le_right _ _⟩

/-- Under the stream `unifAsc` (first draw 10, later draws 80, all legal
outputs of `random.uniform(5, 85)`) the mock probabilities for `req0`
come out as 10, 80, 80, 80: no sorting intervenes. -/
theorem mock_probs_unifAsc :
    (generate_mock_predictions hash0 unifAsc req0).map (·.probability) = [10, 80, 80, 80] := by
  show [mock_probability 5 "Inundación" 10, mock_probability 5 "Deslizamiento" 80,
        mock_probability 5 "Incendio" 80, mock_probability 5 "Sismo" 80] = [10, 80, 80, 80]
  norm_num [mock_probability, seasonal_adjust, pyRound2, pyRoundInt, min_def]

/-- Claim C1, counterexample: for the valid request `req0` and the legal
uniform stream `unifAsc`, the predictions in the `/predict` response
have probabilities 10, 80, 80, 80 — not sorted non-increasing.  The
code never sorts `generate_mock_predictions`' output. -/
theorem C1_counterexample :
    validRequest req0 = true ∧
    ¬ nonIncreasing ((predict hash0 unifAsc st0 0 "t" req0).1.predictions.map (·.probability)) := by
  refine ⟨by decide, ?_⟩
  have h : (predict hash0 unifAsc st0 0 "t" req0).1.predictions.map (·.probability)
      = [10, 80, 80, 80] := mock_probs_unifAsc
  rw [h]
  simp [nonIncreasing, List.chain'_cons, List.chain'_singleton]
  norm_num

/-- Claim C1, amended: the predictions list of every `/predict` response
is in the fixed source order Inundación, Deslizamiento, Incendio, Sismo
(the original event-class index order), regardless of the probabilities;
no sorting by probability is applied. -/
theorem C1_fixed_order (pyHash : String → ℤ) (uniform : ℤ → ℕ → ℚ) (σ : GlobalState)
    (entropy : ℤ) (now : String) (r : PredictionRequest) :
    (predict pyHash uniform σ entropy now r).1.predictions.map (·.event_type) = event_types := rfl

/-- Claim C2: `get_risk_level` returns the critical tier exactly when
the probability is at least 75, the high tier on [50, 75), the medium
tier on [25, 50), the low tier below 25; and every `EventProbability`
in a `/predict` response carries the risk level computed from its own
probability by that rule. -/
theorem C2_risk_level :
    (∀ p : ℚ,
      (get_risk_level p = "crítico" ↔ 75 ≤ p) ∧
      (get_risk_level p = "alto" ↔ 50 ≤ p ∧ p < 75) ∧
      (get_risk_level p = "medio" ↔ 25 ≤ p ∧ p < 50) ∧
      (get_risk_level p = "bajo" ↔ p < 25)) ∧
    (∀ (pyHash : String → ℤ) (uniform : ℤ → ℕ → ℚ) (σ : GlobalState)
      (entropy : ℤ) (now : String) (r : PredictionRequest) (e : EventProbability),
      e ∈ (predict pyHash uniform σ entropy now r).1.predictions →
        e.risk_level = get_risk_level e.probability) := by
  constructor
  · intro p
    unfold get_risk_level
    split_ifs with h1 h2 h3 <;>
      refine ⟨?_, ?_, ?_, ?_⟩ <;> simp_all <;> intros <;> linarith
  · intro pyHash uniform σ entropy now r e he
    replace he : e ∈ generate_mock_predictions pyHash uniform r := he
    unfold generate_mock_predictions at he
    rw [List.mem_map] at he
    obtain ⟨ie, _, rfl⟩ := he
    rfl

/-- Claim C2, witness: the first prediction for `req0` under the
constant stream `unif0` carries the risk level of its own
probability. -/
theorem C2_risk_level_witness :
    (mockStep 5 "Inundación" 10).risk_level
      = get_risk_level (mockStep 5 "Inundación" 10).probability :=
  C2_risk_level.2 hash0 unif0 st0 0 "t" req0 (mockStep 5 "Inundación" 10)
    (List.mem_cons_self _ _)

/-- Claim C3, counterexample: the same valid payload `req0` issued at
two different clock instants yields different full response bodies,
because the handler embeds `datetime.now().isoformat()` in the
`timestamp` field. -/
theorem C3_counterexample :
    validRequest req0 = true ∧
    (predict hash0 unif0 st0 0 "2025-12-15T10:30:00" req0).1
      ≠ (predict hash0 unif0 st0 0 "2025-12-15T10:30:01" req0).1 := by
  refine ⟨by decide, ?_⟩
  intro h
  have h2 := congrArg PredictionResponse.timestamp h
  simp [predict] at h2

/-- Claim C3, amended: two runs of the handler on the identical payload
agree on every response field except `timestamp` — in particular the
predictions, success flag, location echo, model version and mock flag
are identical, whatever the global state, entropy and clock of each
run. -/
theorem C3_identical_up_to_timestamp (pyHash : String → ℤ) (uniform : ℤ → ℕ → ℚ)
    (σ σ' : GlobalState) (e e' : ℤ) (now now' : String) (r : PredictionRequest) :
    (predict pyHash uniform σ e now r).1.predictions
      = (predict pyHash uniform σ' e' now' r).1.predictions ∧
    (predict pyHash uniform σ e now r).1.success
      = (predict pyHash uniform σ' e' now' r).1.success ∧
    (predict pyHash uniform σ e now r).1.location_provincia
      = (predict pyHash uniform σ' e' now' r).1.location_provincia ∧
    (predict pyHash uniform σ e now r).1.location_canton
      = (predict pyHash uniform σ' e' now' r).1.location_canton ∧
    (predict pyHash uniform σ e now r).1.location_lat
      = (predict pyHash uniform σ' e' now' r).1.location_lat ∧
    (predict pyHash uniform σ e now r).1.location_lng
      = (predict pyHash uniform σ' e' now' r).1.location_lng ∧
    (predict pyHash uniform σ e now r).1.model_version
      = (predict pyHash uniform σ' e' now' r).1.model_version ∧
    (predict pyHash uniform σ e now r).1.is_mock
      = (predict pyHash uniform σ' e' now' r).1.is_mock :=
  ⟨rfl, rfl, rfl, rfl, rfl, rfl, rfl, rfl⟩

/-- Claim C4, counterexample: handling the valid request `req0` changes
the process-global state — `generate_mock_predictions` reseeds the
`random` module's global generator (`random.seed(seed)` and then
`random.seed()`), so the state after the call differs from the state
before it. -/
theorem C4_counterexample :
    validRequest req0 = true ∧ (predictEndpoint hash0 unif0 st0 1 "t" req0).2 ≠ st0 := by
  refine ⟨by decide, ?_⟩
  intro h
  have h2 := congrArg GlobalState.randState h
  have h3 : (predictEndpoint hash0 unif0 st0 1 "t" req0).2
      = (predict hash0 unif0 st0 1 "t" req0).2 := by
    unfold predictEndpoint
    rw [show validRequest req0 = true from by decide]
    rfl
  rw [h3] at h2
  simp [predict, st0] at h2

/-- Claim C4, amended: request handling never writes `MODEL_LOADED`
(and `GET /health` writes nothing at all), but it does write one piece
of shared mutable state: the `random` module's global generator, which
it leaves reseeded from OS entropy. -/
theorem C4_state_effects (pyHash : String → ℤ) (uniform : ℤ → ℕ → ℚ) (σ : GlobalState)
    (entropy : ℤ) (now : String) (r : PredictionRequest) :
    ((predict pyHash uniform σ entropy now r).2.MODEL_LOADED = σ.MODEL_LOADED) ∧
    ((predict pyHash uniform σ entropy now r).2.randState = entropy) ∧
    ((predictEndpoint pyHash uniform σ entropy now r).2.MODEL_LOADED = σ.MODEL_LOADED) ∧
    ((health_check σ now).2 = σ) := by
  refine ⟨rfl, rfl, ?_, rfl⟩
  unfold predictEndpoint
  split <;> rfl

/-- Claim C5, counterexample: with the model not loaded
(`MODEL_LOADED = false`, its constant value, main.py line 126), a valid
`POST /predict` is answered with a 200 success body, not a 503: the
handler never checks the flag (the check is only a comment,
main.py lines 238-240). -/
theorem C5_counterexample :
    MODEL_LOADED_init = false ∧ st0.MODEL_LOADED = MODEL_LOADED_init ∧
    ((predictEndpoint hash0 unif0 st0 0 "t" req0).1).isOk = true := by
  refine ⟨rfl, rfl, ?_⟩
  unfold predictEndpoint
  rw [show validRequest req0 = true from by decide]
  rfl

/-- Claim C5, amended: `POST /predict` never returns a 503: every
request passing field validation is served mock predictions with a 200
success response, whatever the load flag — there is no not-ready path
in the handler. -/
theorem C5_no_unavailable_response (pyHash : String → ℤ) (uniform : ℤ → ℕ → ℚ)
    (σ : GlobalState) (entropy : ℤ) (now : String) (r : PredictionRequest)
    (h : validRequest r = true) :
    ((predictEndpoint pyHash uniform σ entropy now r).1).isOk = true ∧
    (predictEndpoint pyHash uniform σ entropy now r).1
      = HttpResult.ok (predict pyHash uniform σ entropy now r).1 := by
  unfold predictEndpoint
  rw [h]
  exact ⟨rfl, rfl⟩

/-- Claim C5, witness for the amended statement, at `req0` with the
model flag false. -/
theorem C5_no_unavailable_response_witness :
    ((predictEndpoint hash0 unif0 st0 0 "t" req0).1).isOk = true ∧
    (predictEndpoint hash0 unif0 st0 0 "t" req0).1
      = HttpResult.ok (predict hash0 unif0 st0 0 "t" req0).1 :=
  C5_no_unavailable_response hash0 unif0 st0 0 "t" req0 (by decide)

/-- Claim C6: a request violating the pydantic field bounds is rejected
with a validation error before the handler body runs — the global state
is untouched and no prediction is generated — and every request within
the bounds passes validation and is served by the handler. -/
theorem C6_validation_boundary (pyHash : String → ℤ) (uniform : ℤ → ℕ → ℚ)
    (σ : GlobalState) (entropy : ℤ) (now : String) (r : PredictionRequest) :
    (validRequest r = false →
      predictEndpoint pyHash uniform σ entropy now r = (HttpResult.validationError, σ)) ∧
    (validRequest r = true →
      predictEndpoint pyHash uniform σ entropy now r
        = (HttpResult.ok (predict pyHash uniform σ entropy now r).1,
           (predict pyHash uniform σ entropy now r).2)) := by
  constructor <;> intro h <;> unfold predictEndpoint <;> rw [h] <;> rfl

/-- Claim C6, witness: `reqBad` (day = 32) is rejected with the state
untouched, and `req0` is served. -/
theorem C6_validation_boundary_witness :
    predictEndpoint hash0 unif0 st0 0 "t" reqBad = (HttpResult.validationError, st0) ∧
    predictEndpoint hash0 unif0 st0 0 "t" req0
      = (HttpResult.ok (predict hash0 unif0 st0 0 "t" req0).1,
         (predict hash0 unif0 st0 0 "t" req0).2) :=
  ⟨(C6_validation_boundary hash0 unif0 st0 0 "t" reqBad).1 (by decide),
   (C6_validation_boundary hash0 unif0 st0 0 "t" req0).2 (by decide)⟩

/-- Claim C7: whenever every `random.uniform(5, 85)` draw lies in
[5, 85], every prediction produced by the pipeline has a probability in
[0, 100] — the `min(·, 100.0)` clamp caps seasonally inflated values at
100, and rounding a value at least 5 cannot go below 0. -/
theorem C7_probability_in_range (pyHash : String → ℤ) (uniform : ℤ → ℕ → ℚ)
    (hu : ∀ s i, 5 ≤ uniform s i ∧ uniform s i ≤ 85)
    (r : PredictionRequest) (e : EventProbability)
    (he : e ∈ generate_mock_predictions pyHash uniform r) :
    0 ≤ e.probability ∧ e.probability ≤ 100 := by
  unfold generate_mock_predictions at he
  rw [List.mem_map] at he
  obtain ⟨ie, _, rfl⟩ := he
  exact mock_probability_bounds _ _ (hu _ _).1

/-- Claim C7, witness: the first prediction for `req0` under the
constant in-range stream `unif0`. -/
theorem C7_probability_in_range_witness :
    0 ≤ (mockStep 5 "Inundación" 10).probability ∧
    (mockStep 5 "Inundación" 10).probability ≤ 100 :=
  C7_probability_in_range hash0 unif0
    (fun s i => ⟨by norm_num [unif0], by norm_num [unif0]⟩) req0 _
    (List.mem_cons_self _ _)

/-- Claim C8: `GET /health` reports `model_loaded` equal to the
process's load flag and leaves the global state unchanged (it is a pure
read), so a caller can tell ready from not-ready from the response
alone. -/
theorem C8_health_reports_flag (σ : GlobalState) (now : String) :
    (health_check σ now).1.model_loaded = σ.MODEL_LOADED ∧ (health_check σ now).2 = σ :=
  ⟨rfl, rfl⟩

/-- Claim C9: the predictions depend only on provincia, canton and
month — two valid requests agreeing on those three fields receive
identical predictions lists, whatever their latitude, longitude and
day. -/
theorem C9_location_month_only (pyHash : String → ℤ) (uniform : ℤ → ℕ → ℚ)
    (r r' : PredictionRequest) (hp : r.provincia = r'.provincia)
    (hc : r.canton = r'.canton) (hm : r.month = r'.month) :
    generate_mock_predictions pyHash uniform r = generate_mock_predictions pyHash uniform r' := by
  unfold generate_mock_predictions
  rw [hp, hc, hm]

/-- Claim C9, witness: `req0` and `req0'` differ in latitude, longitude
and day but agree on provincia, canton and month, and get the same
predictions. -/
theorem C9_location_month_only_witness :
    generate_mock_predictions hash0 unif0 req0 = generate_mock_predictions hash0 unif0 req0' :=
  C9_location_month_only hash0 unif0 req0 req0' rfl rfl rfl

/-- Claim C10: every successful `/predict` response carries exactly four
predictions whose event types are, in order, Inundación, Deslizamiento,
Incendio, Sismo, and has `success = true`, `is_mock = true` and
`model_version = "mock-v1.0.0"`. -/
theorem C10_response_shape (pyHash : String → ℤ) (uniform : ℤ → ℕ → ℚ) (σ : GlobalState)
    (entropy : ℤ) (now : String) (r : PredictionRequest) :
    ((predict pyHash uniform σ entropy now r).1.predictions.map (·.event_type)
        = ["Inundación", "Deslizamiento", "Incendio", "Sismo"]) ∧
    (predict pyHash uniform σ entropy now r).1.predictions.length = 4 ∧
    (predict pyHash uniform σ entropy now r).1.success = true ∧
    (predict pyHash uniform σ entropy now r).1.is_mock = true ∧
    (predict pyHash uniform σ entropy now r).1.model_version = "mock-v1.0.0" :=
  ⟨rfl, rfl, rfl, rfl, rfl⟩

end AIService
